import Mathlib

/-!
# Safety Alert Server — shallow embedding and verification

A shallow embedding of `src/server.js` (a dead-man's-switch check-in timer
with Telegram alert fan-out), followed by theorems settling the spec's
claims about it.

Modelling conventions:
* Timestamps and durations are `Int` milliseconds (JS numbers on the code's
  integral paths).
* JavaScript truthiness on the fields the code tests with `if (x)` / `x || y`
  is modelled explicitly (`JSVal.truthy`, `Option` cases, zero tests).
* Each HTTP handler becomes a pure function from its parsed body and the
  current time to the new `SafetyState` plus a response record.
* The Telegram transport (`bot.sendMessage`) is an oracle
  `delivery : Contact → Bool` giving each attempt's outcome; the list of
  attempted `(chatId, message)` pairs is returned alongside the counters so
  "the Notifier was never invoked" is expressible.
-/

namespace SafetyAlert

/-- A JavaScript value as it can appear in a contact's `chatId` field:
`undefined` (field absent), `null`, a string, an integral number, a boolean. -/
inductive JSVal where
  | undef : JSVal
  | null : JSVal
  | str : String → JSVal
  | num : Int → JSVal
  | boolean : Bool → JSVal
deriving DecidableEq, Repr

/-- JavaScript truthiness: `undefined`, `null`, `""`, `0` and `false` are
falsy; every other modelled value is truthy. -/
def JSVal.truthy : JSVal → Bool
  | .undef => false
  | .null => false
  | .str s => !(s == "")
  | .num n => !(n == 0)
  | .boolean b => b

/-- A contact: a display name and a `chatId` field holding any JS value
(`undef` models a contact object with no `chatId` property). -/
structure Contact where
  name : String
  chatId : JSVal
deriving DecidableEq, Repr

/-- The in-memory `safetyState` object of `server.js`. -/
structure SafetyState where
  deadline : Option Int
  timerDuration : Int
  contacts : List Contact
  alertSentForCurrentDeadline : Bool
  lastResetBy : Option String
deriving DecidableEq, Repr

/-- The initial `safetyState` literal: `deadline: null`,
`timerDuration: 24 * 60 * 60 * 1000`, empty contacts, flag false,
`lastResetBy: null`. -/
def initialState : SafetyState :=
  { deadline := none
    timerDuration := 24 * 60 * 60 * 1000
    contacts := []
    alertSentForCurrentDeadline := false
    lastResetBy := none }

/-- `POST /api/reset-timer`: `effectiveDuration = duration || timerDuration`
(JS `||`: the provided duration is used unless it is absent or falsy, i.e. 0);
then `deadline = now + effectiveDuration`, the alert flag is cleared, and
`lastResetBy = resetBy || "Anonymous"`. -/
def resetTimer (duration : Option Int) (resetBy : Option String) (now : Int)
    (st : SafetyState) : SafetyState :=
  let effectiveDuration : Int :=
    match duration with
    | none => st.timerDuration
    | some d => if d = 0 then st.timerDuration else d
  { st with
    deadline := some (now + effectiveDuration)
    alertSentForCurrentDeadline := false
    lastResetBy := some (match resetBy with
      | none => "Anonymous"
      | some s => if s = "" then "Anonymous" else s) }

/-- The parsed `contacts` field of a `POST /api/contacts` body: either a JS
array of contact objects or any non-array value (`Array.isArray` fails). -/
inductive ContactsBody where
  | array : List Contact → ContactsBody
  | nonArray : JSVal → ContactsBody
deriving DecidableEq, Repr

/-- Response of `POST /api/contacts`: HTTP status, `success` flag, and the
`count` field when present. -/
structure ContactsResponse where
  status : Nat
  success : Bool
  count : Option Nat
deriving DecidableEq, Repr

/-- `POST /api/contacts`: reject with 400 unless the field is an array,
otherwise replace `safetyState.contacts` wholesale and answer
`{success: true, count: contacts.length}`. -/
def setContacts (body : ContactsBody) (st : SafetyState) :
    SafetyState × ContactsResponse :=
  match body with
  | .nonArray _ => (st, { status := 400, success := false, count := none })
  | .array cs =>
      ({ st with contacts := cs },
       { status := 200, success := true, count := some cs.length })

/-- The duration computed by `POST /api/timer-duration`:
`((hours || 0) * 3600 + (minutes || 0) * 60 + (seconds || 0)) * 1000`. -/
def computeDuration (hours minutes seconds : Option Int) : Int :=
  ((hours.getD 0) * 3600 + (minutes.getD 0) * 60 + (seconds.getD 0)) * 1000

/-- Response of `POST /api/timer-duration`. -/
structure DurationResponse where
  status : Nat
  success : Bool
deriving DecidableEq, Repr

/-- `POST /api/timer-duration`: reject with 400 if the computed duration is
`<= 0`; otherwise assign `timerDuration := duration` FIRST, and then, if
`safetyState.deadline` is truthy, recompute
`timeElapsed = now - (deadline - timerDuration)` and
`deadline = now + timerDuration - timeElapsed` — note both reads of
`timerDuration` see the NEW value, exactly as in the source. -/
def setDuration (hours minutes seconds : Option Int) (now : Int)
    (st : SafetyState) : SafetyState × DurationResponse :=
  let duration := computeDuration hours minutes seconds
  if duration ≤ 0 then (st, { status := 400, success := false })
  else
    let st1 := { st with timerDuration := duration }
    match st1.deadline with
    | none => (st1, { status := 200, success := true })
    | some d =>
        if d = 0 then (st1, { status := 200, success := true })
        else
          let timeElapsed := now - (d - st1.timerDuration)
          ({ st1 with deadline := some (now + st1.timerDuration - timeElapsed) },
           { status := 200, success := true })

/-- The filter on line 125: `safetyState.contacts.filter((c) => c.chatId)` —
a contact is eligible iff its `chatId` is truthy. -/
def eligibleContacts (cs : List Contact) : List Contact :=
  cs.filter (fun c => c.chatId.truthy)

/-- Result record of `sendAlertToContacts`. `total` is `none` on the
early-return path (line 129 returns `{ sent: 0, failed: 0 }` with no `total`
property) and `some n` on the normal path. -/
structure DispatchResult where
  sent : Nat
  failed : Nat
  total : Option Nat
deriving DecidableEq, Repr

/-- The `for … try/catch` loop of `sendAlertToContacts`: one
`bot.sendMessage` attempt per contact, `sent++` on success, `failed++` on
failure. -/
def sendLoop (delivery : Contact → Bool) : List Contact → Nat × Nat
  | [] => (0, 0)
  | c :: rest =>
      let r := sendLoop delivery rest
      if delivery c then (r.1 + 1, r.2) else (r.1, r.2 + 1)

/-- `sendAlertToContacts(message)`: filter to contacts with a truthy
`chatId`; if none, return `{sent: 0, failed: 0}` (no `total`) without any
`bot.sendMessage` call; otherwise attempt delivery to each eligible contact
and return `{sent, failed, total: contacts.length}`. The second component
lists every `bot.sendMessage(contact.chatId, message)` invocation made. -/
def sendAlertToContacts (delivery : Contact → Bool) (message : String)
    (st : SafetyState) : DispatchResult × List (JSVal × String) :=
  let contacts := eligibleContacts st.contacts
  if contacts.length = 0 then
    ({ sent := 0, failed := 0, total := none }, [])
  else
    let r := sendLoop delivery contacts
    ({ sent := r.1, failed := r.2, total := some contacts.length },
     contacts.map (fun c => (c.chatId, message)))

/-- `checkTimer()` up to (and including) the flag flip and the dispatch
decision: if `deadline` is falsy (`null` or `0`) do nothing; if
`now >= deadline` and the alert flag is clear, set
`alertSentForCurrentDeadline := true` and trigger `sendAlertToContacts`
(signalled by the returned `Bool`); otherwise do nothing. The delayed
auto-rearm inside the `setTimeout` callback is the separate step `rearm`. -/
def checkTimer (now : Int) (st : SafetyState) : SafetyState × Bool :=
  match st.deadline with
  | none => (st, false)
  | some d =>
      if d = 0 then (st, false)
      else if now ≥ d ∧ st.alertSentForCurrentDeadline = false then
        ({ st with alertSentForCurrentDeadline := true }, true)
      else (st, false)

/-- The `setTimeout` callback run ~1s after an alert dispatch:
`deadline = Date.now() + timerDuration; alertSentForCurrentDeadline = false`. -/
def rearm (now : Int) (st : SafetyState) : SafetyState :=
  { st with
    deadline := some (now + st.timerDuration)
    alertSentForCurrentDeadline := false }

/-- Number of alert dispatches triggered by a sequence of `checkTimer`
invocations at the given times, with no intervening reset or rearm. -/
def ticksDispatchCount : List Int → SafetyState → Nat
  | [], _ => 0
  | t :: ts, st =>
      (if (checkTimer t st).2 then 1 else 0) + ticksDispatchCount ts (checkTimer t st).1

/-- Every state-mutating step of the program, for stating whole-program
invariants: the three mutating HTTP handlers, the periodic tick, and the
delayed auto-rearm. -/
inductive Op where
  | reset : Option Int → Option String → Int → Op
  | contacts : ContactsBody → Op
  | duration : Option Int → Option Int → Option Int → Int → Op
  | tick : Int → Op
  | rearmStep : Int → Op

/-- The state transition of one `Op`. -/
def applyOp : Op → SafetyState → SafetyState
  | .reset d r n, st => resetTimer d r n st
  | .contacts b, st => (setContacts b st).1
  | .duration h m s n, st => (setDuration h m s n st).1
  | .tick n, st => (checkTimer n st).1
  | .rearmStep n, st => rearm n st

/-! ## Helper lemmas -/

/-- The delivery loop attempts every contact exactly once, so the success and
failure counters sum to the list length. -/
theorem sendLoop_sum (delivery : Contact → Bool) (cs : List Contact) :
    (sendLoop delivery cs).1 + (sendLoop delivery cs).2 = cs.length := by
  induction cs with
  | nil => rfl
  | cons c rest ih =>
      simp only [sendLoop]
      by_cases h : delivery c = true <;> simp [h] <;> omega

/-- A tick either leaves the state untouched and dispatches nothing, or — only
when the alert flag was clear — sets the flag and dispatches. -/
theorem checkTimer_elim (now : Int) (st : SafetyState) :
    checkTimer now st = (st, false) ∨
    (checkTimer now st
        = ({ st with alertSentForCurrentDeadline := true }, true) ∧
      st.alertSentForCurrentDeadline = false) := by
  unfold checkTimer
  split
  · exact Or.inl rfl
  · split
    · exact Or.inl rfl
    · split
      next hc => exact Or.inr ⟨rfl, hc.2⟩
      · exact Or.inl rfl

/-- Once the alert flag is set, a tick is a complete no-op. -/
theorem checkTimer_of_alerted (now : Int) (st : SafetyState)
    (h : st.alertSentForCurrentDeadline = true) :
    checkTimer now st = (st, false) := by
  rcases checkTimer_elim now st with h1 | ⟨h1, h2⟩
  · exact h1
  · rw [h] at h2
    cases h2

/-- Once the alert flag is set, no further tick dispatches. -/
theorem ticksDispatchCount_of_alerted (ts : List Int) (st : SafetyState)
    (h : st.alertSentForCurrentDeadline = true) :
    ticksDispatchCount ts st = 0 := by
  induction ts with
  | nil => rfl
  | cons t ts ih =>
      simp only [ticksDispatchCount, checkTimer_of_alerted t st h]
      simpa using ih

/-- Between two deadline assignments, a run of ticks dispatches at most one
alert. -/
theorem ticksDispatchCount_le_one (ts : List Int) (st : SafetyState) :
    ticksDispatchCount ts st ≤ 1 := by
  induction ts generalizing st with
  | nil => simp [ticksDispatchCount]
  | cons t ts ih =>
      simp only [ticksDispatchCount]
      rcases checkTimer_elim t st with h | ⟨h, _⟩
      · rw [h]
        simpa using ih st
      · rw [h]
        have h0 : ticksDispatchCount ts
            { st with alertSentForCurrentDeadline := true } = 0 :=
          ticksDispatchCount_of_alerted ts _ rfl
        simp [h0]

/-- Removing a contact whose `chatId` is falsy does not change the eligible
list. -/
theorem eligibleContacts_append_falsy (pre post : List Contact) (c : Contact)
    (h : c.chatId.truthy = false) :
    eligibleContacts (pre ++ c :: post) = eligibleContacts (pre ++ post) := by
  simp [eligibleContacts, List.filter_append, List.filter_cons, h]

/-! ## Claim theorems -/

/-- C1: at a state with `deadline = 100000` and `timerDuration = 50000`, a
`setDuration` call to 80 seconds (80000 ms) at `now = 90000` leaves the
deadline at `100000`, whereas the claimed elapsed-preserving recomputation
`now + T2 - (T1 - (D - now))` is `130000`: because `timerDuration` is
overwritten before the elapsed time is read, the code never extends the
deadline, contradicting its own comment "extend the deadline
proportionally". -/
theorem setDuration_no_proportional_extension :
    ((setDuration none none (some 80) 90000
        { deadline := some 100000, timerDuration := 50000, contacts := [],
          alertSentForCurrentDeadline := false,
          lastResetBy := none }).1.deadline = some 100000) ∧
    ((90000 + 80000 - (50000 - (100000 - 90000)) : Int) = 130000) ∧
    ((100000 : Int) = 130000 → False) := by
  decide

/-- C2 counterexample: on a contact list with no eligible contact the
returned record's `total` is absent (`none`), not `0`, so "total equals the
number of contacts with a non-absent destination identifier" fails on the
early-return path. -/
theorem dispatch_total_missing_when_empty :
    (sendAlertToContacts (fun _ => true) "alert" initialState).1.total
      ≠ some 0 := by
  decide

/-- C2 (amended): `sent + failed` equals the eligible-contact count on every
return; `total` equals that count when it is positive and is absent
(`none`) when it is zero. -/
theorem dispatch_counts (delivery : Contact → Bool) (message : String)
    (st : SafetyState) :
    ((sendAlertToContacts delivery message st).1.sent
        + (sendAlertToContacts delivery message st).1.failed
      = (eligibleContacts st.contacts).length) ∧
    ((sendAlertToContacts delivery message st).1.total
      = if (eligibleContacts st.contacts).length = 0 then none
        else some (eligibleContacts st.contacts).length) := by
  unfold sendAlertToContacts
  by_cases h : (eligibleContacts st.contacts).length = 0
  · simp [h]
  · simp [h, sendLoop_sum]

/-- C3 counterexample: with one contact whose `chatId` is `null`, the
dispatch result is `{sent: 0, failed: 0}` with no `total` field, not
`{sent: 0, failed: 0, total: 0}`. -/
theorem dispatch_empty_return_lacks_total :
    (sendAlertToContacts (fun _ => true) "alert"
        { initialState with contacts := [⟨"Bob", JSVal.null⟩] }).1
      ≠ { sent := 0, failed := 0, total := some 0 } := by
  decide

/-- C3 (amended): when no contact has a truthy `chatId`, dispatch returns
immediately with `{sent: 0, failed: 0}` (no `total` field) and performs no
`bot.sendMessage` invocation. -/
theorem dispatch_no_eligible (delivery : Contact → Bool) (message : String)
    (st : SafetyState) (h : eligibleContacts st.contacts = []) :
    sendAlertToContacts delivery message st
      = ({ sent := 0, failed := 0, total := none }, []) := by
  unfold sendAlertToContacts
  simp [h]

/-- Witness for C3's theorem at a concrete one-contact state. -/
theorem dispatch_no_eligible_witness :
    sendAlertToContacts (fun _ => true) "alert"
        { initialState with contacts := [⟨"Bob", JSVal.null⟩] }
      = ({ sent := 0, failed := 0, total := none }, []) :=
  dispatch_no_eligible (fun _ => true) "alert"
    { initialState with contacts := [⟨"Bob", JSVal.null⟩] } (by decide)

/-- C4: any run of ticks with no intervening deadline assignment dispatches
at most one alert; a tick that dispatches leaves the state with the alert
flag set (before the dispatch result is even consulted) and its deadline
unchanged, every later tick on that state is a complete no-op, and the
re-arm step (which assigns a fresh deadline) clears the flag. -/
theorem checkTimer_at_most_once_per_deadline (st : SafetyState)
    (ts : List Int) (now t now2 : Int) :
    ticksDispatchCount ts st ≤ 1 ∧
    ((checkTimer now st).2 = true →
      (checkTimer now st).1.alertSentForCurrentDeadline = true ∧
      (checkTimer now st).1.deadline = st.deadline ∧
      checkTimer t (checkTimer now st).1 = ((checkTimer now st).1, false)) ∧
    (rearm now2 st).alertSentForCurrentDeadline = false := by
  refine ⟨ticksDispatchCount_le_one ts st, ?_, rfl⟩
  intro hfired
  rcases checkTimer_elim now st with h | ⟨h, _⟩
  · rw [h] at hfired
    cases hfired
  · rw [h]
    exact ⟨rfl, rfl, checkTimer_of_alerted t _ rfl⟩

/-- Witness for C4's theorem: three expiring ticks after a deadline of 50
dispatch at most once, and the tick after the dispatching one is a no-op. -/
theorem checkTimer_at_most_once_per_deadline_witness :
    ticksDispatchCount [100, 130, 160]
        { deadline := some 50, timerDuration := 1000, contacts := [],
          alertSentForCurrentDeadline := false, lastResetBy := none } ≤ 1 ∧
    checkTimer 130
        (checkTimer 100
          { deadline := some 50, timerDuration := 1000, contacts := [],
            alertSentForCurrentDeadline := false, lastResetBy := none }).1
      = ((checkTimer 100
          { deadline := some 50, timerDuration := 1000, contacts := [],
            alertSentForCurrentDeadline := false, lastResetBy := none }).1,
         false) :=
  ⟨(checkTimer_at_most_once_per_deadline
      { deadline := some 50, timerDuration := 1000, contacts := [],
        alertSentForCurrentDeadline := false, lastResetBy := none }
      [100, 130, 160] 100 130 0).1,
   ((checkTimer_at_most_once_per_deadline
      { deadline := some 50, timerDuration := 1000, contacts := [],
        alertSentForCurrentDeadline := false, lastResetBy := none }
      [] 100 130 0).2.1 (by decide)).2.2⟩

/-- C5 counterexample: `reset` with the provided duration `-5000` (truthy in
JS though not strictly positive) uses `-5000` rather than falling back to
the configured `timerDuration`, and a provided-but-empty `resetBy` records
"Anonymous" rather than the provided value. -/
theorem resetTimer_positivity_claim_false :
    ((resetTimer (some (-5000)) (some "") 0 initialState).deadline
        = some (0 + initialState.timerDuration) → False) ∧
    ((resetTimer (some (-5000)) (some "") 0 initialState).lastResetBy
        = some "" → False) := by
  decide

/-- C5 (amended): the new deadline is `now` plus the provided duration when
that duration is provided and nonzero (negative values included), else
`now + timerDuration`; the alert flag is cleared; `lastResetBy` is the
provided resetter when provided and nonempty, else "Anonymous";
`timerDuration` and `contacts` are untouched. -/
theorem resetTimer_spec (duration : Option Int) (resetBy : Option String)
    (now : Int) (st : SafetyState) :
    (resetTimer duration resetBy now st).alertSentForCurrentDeadline
        = false ∧
    ((duration = none ∨ duration = some 0) →
      (resetTimer duration resetBy now st).deadline
        = some (now + st.timerDuration)) ∧
    (∀ d : Int, duration = some d → d ≠ 0 →
      (resetTimer duration resetBy now st).deadline = some (now + d)) ∧
    ((resetBy = none ∨ resetBy = some "") →
      (resetTimer duration resetBy now st).lastResetBy
        = some "Anonymous") ∧
    (∀ s : String, resetBy = some s → s ≠ "" →
      (resetTimer duration resetBy now st).lastResetBy = some s) ∧
    (resetTimer duration resetBy now st).timerDuration
        = st.timerDuration ∧
    (resetTimer duration resetBy now st).contacts = st.contacts := by
  refine ⟨rfl, ?_, ?_, ?_, ?_, rfl, rfl⟩
  · rintro (rfl | rfl) <;> simp [resetTimer]
  · rintro d rfl hd
    simp [resetTimer, hd]
  · rintro (rfl | rfl) <;> simp [resetTimer]
  · rintro s rfl hs
    simp [resetTimer, hs]

/-- Witness for C5's theorem at a concrete reset. -/
theorem resetTimer_spec_witness :
    (resetTimer (some 5000) (some "Alice") 10
        initialState).alertSentForCurrentDeadline = false ∧
    (resetTimer (some 5000) (some "Alice") 10 initialState).deadline
        = some (10 + 5000) ∧
    (resetTimer (some 5000) (some "Alice") 10 initialState).lastResetBy
        = some "Alice" :=
  ⟨(resetTimer_spec (some 5000) (some "Alice") 10 initialState).1,
   (resetTimer_spec (some 5000) (some "Alice") 10 initialState).2.2.1
      5000 rfl (by decide),
   (resetTimer_spec (some 5000) (some "Alice") 10 initialState).2.2.2.2.1
      "Alice" rfl (by decide)⟩

/-- C6: `timerDuration > 0` holds initially (24 hours) and is preserved by
every operation; a `setDuration` whose computed duration is `<= 0` is
rejected with a 400 response and leaves the entire state unchanged. -/
theorem timerDuration_positive_invariant (op : Op) (st : SafetyState)
    (h : 0 < st.timerDuration) :
    0 < (applyOp op st).timerDuration ∧
    initialState.timerDuration = 24 * 60 * 60 * 1000 ∧
    0 < initialState.timerDuration ∧
    (∀ ho mi se now, computeDuration ho mi se ≤ 0 →
      setDuration ho mi se now st
        = (st, { status := 400, success := false })) := by
  refine ⟨?_, rfl, by decide, ?_⟩
  · cases op with
    | reset d r n => exact h
    | contacts b => cases b <;> exact h
    | duration ho mi se n =>
        simp only [applyOp]
        unfold setDuration
        by_cases hd : computeDuration ho mi se ≤ 0
        · simpa [hd] using h
        · rcases hdl : st.deadline with _ | d
          · simpa [hd, hdl] using lt_of_not_le hd
          · by_cases h0 : d = 0 <;> simpa [hd, hdl, h0] using lt_of_not_le hd
    | tick n =>
        rcases checkTimer_elim n st with hc | ⟨hc, _⟩ <;>
          simp [applyOp, hc] <;> exact h
    | rearmStep n => exact h
  · intro ho mi se now hle
    unfold setDuration
    simp [hle]

/-- Witness for C6's theorem: positivity after a reset from the initial
state. -/
theorem timerDuration_positive_invariant_witness :
    0 < (applyOp (Op.reset none none 0) initialState).timerDuration :=
  (timerDuration_positive_invariant (Op.reset none none 0) initialState
    (by decide)).1

/-- C7: every operation that changes the stored deadline (reset and the
auto-rearm do; contact edits, ticks and duration changes do not) leaves the
alert flag false in the same step, so a fresh deadline never coexists with
the previous cycle's flag. -/
theorem deadline_change_clears_flag (op : Op) (st : SafetyState)
    (h : (applyOp op st).deadline ≠ st.deadline) :
    (applyOp op st).alertSentForCurrentDeadline = false := by
  cases op with
  | reset d r n => rfl
  | contacts b => cases b <;> exact absurd rfl h
  | rearmStep n => rfl
  | tick n =>
      rcases checkTimer_elim n st with hc | ⟨hc, _⟩ <;>
        · exfalso
          apply h
          simp [applyOp, hc]
  | duration ho mi se n =>
      exfalso
      apply h
      simp only [applyOp]
      unfold setDuration
      by_cases hd : computeDuration ho mi se ≤ 0
      · simp [hd]
      · rcases hdl : st.deadline with _ | d
        · simp [hd, hdl]
        · by_cases h0 : d = 0
          · simp [hd, hdl, h0]
          · simp [hd, hdl, h0]

/-- Witness for C7's theorem: arming the timer from the initial state
changes the deadline and the flag is false afterwards. -/
theorem deadline_change_clears_flag_witness :
    (applyOp (Op.reset none none 0)
        initialState).alertSentForCurrentDeadline = false :=
  deadline_change_clears_flag (Op.reset none none 0) initialState
    (by decide)

/-- C8: a non-array `contacts` body yields a 400 response and leaves the
contact list unchanged; an array body (possibly empty) replaces the list
wholesale and the response reports success with `count` equal to its
length. -/
theorem setContacts_spec (st : SafetyState) (v : JSVal)
    (cs : List Contact) :
    setContacts (ContactsBody.nonArray v) st
      = (st, { status := 400, success := false, count := none }) ∧
    setContacts (ContactsBody.array cs) st
      = ({ st with contacts := cs },
         { status := 200, success := true, count := some cs.length }) :=
  ⟨rfl, rfl⟩

/-- C9: when the deadline is set, a successful `setDuration` leaves the
deadline numerically unchanged (the recomputation cancels because
`timerDuration` was overwritten first) and modifies only `timerDuration`. -/
theorem setDuration_frame (ho mi se : Option Int) (now : Int)
    (st : SafetyState) (d : Int) (hd : st.deadline = some d)
    (hpos : 0 < computeDuration ho mi se) :
    (setDuration ho mi se now st).1.deadline = some d ∧
    (setDuration ho mi se now st).1.timerDuration
        = computeDuration ho mi se ∧
    (setDuration ho mi se now st).1.contacts = st.contacts ∧
    (setDuration ho mi se now st).1.alertSentForCurrentDeadline
        = st.alertSentForCurrentDeadline ∧
    (setDuration ho mi se now st).1.lastResetBy = st.lastResetBy ∧
    (setDuration ho mi se now st).2.success = true := by
  have hnle : ¬ computeDuration ho mi se ≤ 0 := not_le.mpr hpos
  unfold setDuration
  by_cases h0 : d = 0
  · simp [hnle, hd, h0]
  · simp only [hnle, hd, h0]
    refine ⟨?_, by simp [hnle], by simp [hnle], by simp [hnle],
      by simp [hnle], by simp [hnle]⟩
    simp [hnle]

/-- Witness for C9's theorem at a concrete armed state. -/
theorem setDuration_frame_witness :
    (setDuration none none (some 80) 90000
        { deadline := some 100000, timerDuration := 50000, contacts := [],
          alertSentForCurrentDeadline := false,
          lastResetBy := none }).1.deadline = some 100000 :=
  (setDuration_frame none none (some 80) 90000
    { deadline := some 100000, timerDuration := 50000, contacts := [],
      alertSentForCurrentDeadline := false, lastResetBy := none }
    100000 rfl (by decide)).1

/-- C10: eligibility is exactly JS truthiness of `chatId`: dropping a
contact whose `chatId` is falsy leaves the whole dispatch result (counts
and Notifier invocations) unchanged, and an empty string, the number 0,
`null` and an absent field are all falsy. -/
theorem falsy_chatId_excluded (delivery : Contact → Bool)
    (message : String) (st : SafetyState) (pre post : List Contact)
    (c : Contact) (h : c.chatId.truthy = false) :
    sendAlertToContacts delivery message
        { st with contacts := pre ++ c :: post }
      = sendAlertToContacts delivery message
        { st with contacts := pre ++ post } ∧
    (JSVal.str "").truthy = false ∧
    (JSVal.num 0).truthy = false ∧
    JSVal.null.truthy = false ∧
    JSVal.undef.truthy = false := by
  refine ⟨?_, by decide, by decide, rfl, rfl⟩
  unfold sendAlertToContacts
  rw [show ({ st with contacts := pre ++ c :: post } : SafetyState).contacts
        = pre ++ c :: post from rfl,
      show ({ st with contacts := pre ++ post } : SafetyState).contacts
        = pre ++ post from rfl,
      eligibleContacts_append_falsy pre post c h]

/-- Witness for C10's theorem: a contact with `chatId = 0` dispatches
exactly as if it were not in the list. -/
theorem falsy_chatId_excluded_witness :
    sendAlertToContacts (fun c => c.name == "A") "m"
        { initialState with
            contacts := [⟨"A", JSVal.str "id1"⟩, ⟨"B", JSVal.num 0⟩] }
      = sendAlertToContacts (fun c => c.name == "A") "m"
        { initialState with contacts := [⟨"A", JSVal.str "id1"⟩] } :=
  (falsy_chatId_excluded (fun c => c.name == "A") "m" initialState
    [⟨"A", JSVal.str "id1"⟩] [] ⟨"B", JSVal.num 0⟩ rfl).1

end SafetyAlert
